import Mathlib

/-!
Verification of the Gemini process-bridge core
(`src/frontend/src-tauri/src/gemini.rs`).

The Rust source is shallowly embedded: ambient effects (the compile-time
`option_env!` slot, the runtime environment variable, the current working
directory, and the child-process runner) become explicit parameters, and
fallible Rust code returning `Result<_, String>` becomes `Except String _`.
The behaviour of the external `serde_json` library on the repository's
request/response types is modelled by executable renderers and parsers of
the compact JSON grammar that `serde_json::to_string` emits.
-/

/-! ## Data model (structs from gemini.rs) -/

/-- Embeds `GeminiStatusResponse` from gemini.rs. -/
structure GeminiStatusResponse where
  configured : Bool
  message : String
deriving DecidableEq

/-- Embeds `GeminiGenerateResponse` from gemini.rs. -/
structure GeminiGenerateResponse where
  image_base64 : String
  prompt_used : String
deriving DecidableEq

/-- Embeds `GeminiGenerateRequest` from gemini.rs.  Rust `u32` fields are
modelled as `Nat`. -/
structure GeminiGenerateRequest where
  prompt : String
  style : Option String
  width : Option Nat
  height : Option Nat
deriving DecidableEq

/-- Embeds `GeminiEditRequest` from gemini.rs. -/
structure GeminiEditRequest where
  image_base64 : String
  prompt : String
deriving DecidableEq

/-- Embeds `GeminiProcessRequest` from gemini.rs. -/
structure GeminiProcessRequest where
  image_base64 : String
  style : Option String
  custom_prompt : Option String
  remove_background : Option Bool
  threshold : Option Nat
  padding : Option Nat
deriving DecidableEq

/-! ## Credential resolver -/

/-- Embeds `get_api_key` from gemini.rs.  The compile-time
`option_env!("GEMINI_API_KEY")` slot and the runtime
`std::env::var("GEMINI_API_KEY")` lookup are passed in as the two
parameters (`none` = absent).  The Rust `if let Some(key) = BUNDLED_KEY`
block returns the bundled key only when it is non-empty and not the
placeholder, otherwise control falls through to the environment lookup,
which filters with the same predicate. -/
def get_api_key (bundled_key env_key : Option String) : Option String :=
  match bundled_key with
  | some key =>
    if key != "" && key != "your_api_key_here" then some key
    else Option.filter (fun k => k != "" && k != "your_api_key_here") env_key
  | none => Option.filter (fun k => k != "" && k != "your_api_key_here") env_key

/-- Embeds `gemini_check_status` from gemini.rs: a pure function of the two
credential sources; it never consults the process bridge and returns `Ok`
in both arms. -/
def gemini_check_status (bundled_key env_key : Option String) :
    Except String GeminiStatusResponse :=
  match get_api_key bundled_key env_key with
  | some _ => .ok ⟨true, "Gemini API is configured"⟩
  | none => .ok ⟨false, "Gemini API key not configured. Configure in the app settings."⟩

/-! ## Claims about the credential resolver -/

/-- C1: when the build-embedded credential is present, non-empty and not the
placeholder, `get_api_key` returns it and ignores the environment value;
when the embedded slot is absent, empty, or the placeholder, the resolver
falls back to (exactly) the filtered environment lookup. -/
theorem credential_precedence :
    (∀ (k : String) (env : Option String), k ≠ "" → k ≠ "your_api_key_here" →
      get_api_key (some k) env = some k) ∧
    (∀ env : Option String, get_api_key none env
        = Option.filter (fun k => k != "" && k != "your_api_key_here") env) ∧
    (∀ env : Option String, get_api_key (some "") env
        = Option.filter (fun k => k != "" && k != "your_api_key_here") env) ∧
    (∀ env : Option String, get_api_key (some "your_api_key_here") env
        = Option.filter (fun k => k != "" && k != "your_api_key_here") env) := by
  refine ⟨fun k env h1 h2 => ?_, fun env => rfl, fun env => rfl, fun env => rfl⟩
  have hc : (k != "" && k != "your_api_key_here") = true := by simp [h1, h2]
  simp only [get_api_key, hc, if_true]

/-- Witness for C1: with a valid embedded key and a different valid
environment key, the embedded key wins. -/
theorem credential_precedence_witness :
    get_api_key (some "alpha") (some "beta") = some "alpha" :=
  credential_precedence.1 "alpha" (some "beta") (by decide) (by decide)

/-- C2: the empty string and the placeholder literal are treated as absent
from either provenance (replacing them by `none` does not change the
resolver), and when such a value is the only credential available,
`gemini_check_status` reports `configured = false`. -/
theorem placeholder_rejected :
    ∀ v : String, (v = "" ∨ v = "your_api_key_here") →
      (∀ e : Option String, get_api_key (some v) e = get_api_key none e) ∧
      (∀ b : Option String, get_api_key b (some v) = get_api_key b none) ∧
      gemini_check_status (some v) none
        = .ok ⟨false, "Gemini API key not configured. Configure in the app settings."⟩ ∧
      gemini_check_status none (some v)
        = .ok ⟨false, "Gemini API key not configured. Configure in the app settings."⟩ := by
  intro v hv
  have hp : (v != "" && v != "your_api_key_here") = false := by
    rcases hv with rfl | rfl <;> decide
  refine ⟨fun e => ?_, fun b => ?_, ?_, ?_⟩
  · simp only [get_api_key, hp, Bool.false_eq_true, if_false]
  · cases b with
    | none => simp [get_api_key, Option.filter, hp]
    | some key =>
        simp only [get_api_key]
        split <;> simp [Option.filter, hp]
  · simp only [gemini_check_status, get_api_key, hp, Bool.false_eq_true, if_false,
      Option.filter]
  · simp [gemini_check_status, get_api_key, Option.filter, hp]

/-- Witness for C2: the empty string as the sole (embedded) credential
leaves the service unconfigured. -/
theorem placeholder_rejected_witness :
    gemini_check_status (some "") none
      = .ok ⟨false, "Gemini API key not configured. Configure in the app settings."⟩ :=
  (placeholder_rejected "" (Or.inl rfl)).2.2.1

/-- C6: `gemini_check_status` is total: for every state of the two
credential sources it returns `Ok` with exactly the configured/unconfigured
message determined by the resolver.  In this embedding it is a pure
function of the credential sources alone (it takes no process runner), so
it has no side effects and spawns no process. -/
theorem check_status_total : ∀ bundled_key env_key : Option String,
    gemini_check_status bundled_key env_key
      = .ok (match get_api_key bundled_key env_key with
          | some _ => ⟨true, "Gemini API is configured"⟩
          | none => ⟨false, "Gemini API key not configured. Configure in the app settings."⟩) := by
  intro b e
  unfold gemini_check_status
  cases get_api_key b e <;> rfl

/-- C10: whenever the resolver returns a key, that key is non-empty and is
not the placeholder literal, whichever tier it came from. -/
theorem resolved_key_valid : ∀ (bundled_key env_key : Option String) (k : String),
    get_api_key bundled_key env_key = some k →
      k ≠ "" ∧ k ≠ "your_api_key_here" := by
  intro b e k h
  have henv : ∀ (o : Option String),
      Option.filter (fun s => s != "" && s != "your_api_key_here") o = some k →
        k ≠ "" ∧ k ≠ "your_api_key_here" := by
    intro o ho
    rcases Option.filter_eq_some.mp ho with ⟨-, hpk⟩
    simpa using hpk
  cases b with
  | none => exact henv e h
  | some key =>
      simp only [get_api_key] at h
      split at h
      · rename_i hcond
        cases h
        simpa using hcond
      · exact henv e h

/-- Witness for C10: a concrete resolved key satisfies the invariant. -/
theorem resolved_key_valid_witness :
    ("alpha" : String) ≠ "" ∧ ("alpha" : String) ≠ "your_api_key_here" :=
  resolved_key_valid (some "alpha") none "alpha" (by decide)

/-! ## Model of serde_json on the repository's types

The following renderers and parsers model the external `serde_json`
library (a dependency, not part of this repository) on the five derived
types above: `to_string` emits compact JSON with the struct fields in
declaration order, `None` rendered as `null`, and strings escaped with
`\"`, `\\`, the short control escapes `\b \t \n \f \r`, and `\u00XX`
(lowercase hex) for the remaining control characters; `from_str` parses
that grammar back. -/

/-- Hex digit characters used by the string escaper (lowercase, as in
serde_json's HEX_DIGITS table). -/
def hexDigitChar : Nat → Char
  | 0 => '0' | 1 => '1' | 2 => '2' | 3 => '3' | 4 => '4' | 5 => '5'
  | 6 => '6' | 7 => '7' | 8 => '8' | 9 => '9' | 10 => 'a' | 11 => 'b'
  | 12 => 'c' | 13 => 'd' | 14 => 'e' | 15 => 'f' | _ => '*'

/-- Value of a hex digit character, if it is one. -/
def hexVal (c : Char) : Option Nat :=
  if c = '0' then some 0 else if c = '1' then some 1
  else if c = '2' then some 2 else if c = '3' then some 3
  else if c = '4' then some 4 else if c = '5' then some 5
  else if c = '6' then some 6 else if c = '7' then some 7
  else if c = '8' then some 8 else if c = '9' then some 9
  else if c = 'a' then some 10 else if c = 'b' then some 11
  else if c = 'c' then some 12 else if c = 'd' then some 13
  else if c = 'e' then some 14 else if c = 'f' then some 15
  else none

/-- JSON escape of one character, as serde_json emits it. -/
def escapeChar (c : Char) : List Char :=
  if c = '"' then ['\\', '"']
  else if c = '\\' then ['\\', '\\']
  else if c.toNat < 32 then
    if c = '\x08' then ['\\', 'b']
    else if c = '\t' then ['\\', 't']
    else if c = '\n' then ['\\', 'n']
    else if c = '\x0C' then ['\\', 'f']
    else if c = '\r' then ['\\', 'r']
    else ['\\', 'u', '0', '0', hexDigitChar (c.toNat / 16), hexDigitChar (c.toNat % 16)]
  else [c]

/-- JSON escape of a character sequence. -/
def escapeList : List Char → List Char
  | [] => []
  | c :: cs => escapeChar c ++ escapeList cs

/-- Rendering of a JSON string literal (quotes included). -/
def renderString (s : String) : List Char :=
  '"' :: (escapeList s.data ++ ['"'])

/-- Decimal digit character for a single digit. -/
def digitToChar : Nat → Char
  | 0 => '0' | 1 => '1' | 2 => '2' | 3 => '3' | 4 => '4'
  | 5 => '5' | 6 => '6' | 7 => '7' | 8 => '8' | _ => '9'

/-- Decimal rendering of a natural number (big-endian digit characters). -/
def natToChars (n : Nat) : List Char :=
  if n = 0 then ['0'] else ((Nat.digits 10 n).map digitToChar).reverse

/-- Rendering of an optional JSON string (`null` when absent). -/
def renderOptString : Option String → List Char
  | none => "null".data
  | some s => renderString s

/-- Rendering of an optional JSON number (`null` when absent). -/
def renderOptNat : Option Nat → List Char
  | none => "null".data
  | some n => natToChars n

/-- Rendering of an optional JSON boolean (`null` when absent). -/
def renderOptBool : Option Bool → List Char
  | none => "null".data
  | some true => "true".data
  | some false => "false".data

/-- Inverse of the short escapes accepted after a backslash. -/
def unescapeSimple (c : Char) : Option Char :=
  if c = '"' then some '"'
  else if c = '\\' then some '\\'
  else if c = 'b' then some '\x08'
  else if c = 't' then some '\t'
  else if c = 'n' then some '\n'
  else if c = 'f' then some '\x0C'
  else if c = 'r' then some '\r'
  else none

/-- Combined value of four hex digit characters, if all four are hex
digits. -/
def hexVal4 (h1 h2 h3 h4 : Char) : Option Nat :=
  match hexVal h1, hexVal h2, hexVal h3, hexVal h4 with
  | some a, some b, some c, some d => some (((a * 16 + b) * 16 + c) * 16 + d)
  | _, _, _, _ => none

/-- Parser for the body of a JSON string literal (after the opening quote):
returns the unescaped characters and the remainder after the closing
quote. -/
def parseStringBody : List Char → Option (List Char × List Char)
  | [] => none
  | c :: rest =>
    if c = '"' then some ([], rest)
    else if c = '\\' then
      match rest with
      | [] => none
      | e :: rest2 =>
        if e = 'u' then
          match rest2 with
          | h1 :: h2 :: h3 :: h4 :: rest3 =>
            (parseStringBody rest3).bind (fun p =>
              (hexVal4 h1 h2 h3 h4).map (fun v => (Char.ofNat v :: p.1, p.2)))
          | _ => none
        else
          (parseStringBody rest2).bind (fun p =>
            (unescapeSimple e).map (fun u => (u :: p.1, p.2)))
    else
      (parseStringBody rest).map (fun p => (c :: p.1, p.2))

/-- Parser for a JSON string literal (opening quote included). -/
def parseJsonString (l : List Char) : Option (String × List Char) :=
  match l with
  | [] => none
  | c :: rest =>
    if c = '"' then (parseStringBody rest).map (fun p => (String.mk p.1, p.2))
    else none

/-- Value of a decimal digit character, if it is one. -/
def charDigit (c : Char) : Option Nat :=
  if 48 ≤ c.toNat ∧ c.toNat ≤ 57 then some (c.toNat - 48) else none

/-- Does the input start with a decimal digit character? -/
def isDigitStart : List Char → Bool
  | [] => false
  | c :: _ => (charDigit c).isSome

/-- Longest digit run at the front of the input, as digit values. -/
def takeDigits : List Char → List Nat × List Char
  | [] => ([], [])
  | c :: rest =>
    match charDigit c with
    | some d =>
      let p := takeDigits rest
      (d :: p.1, p.2)
    | none => ([], c :: rest)

/-- Parser for an unsigned JSON decimal number. -/
def parseNat (l : List Char) : Option (Nat × List Char) :=
  match takeDigits l with
  | ([], _) => none
  | (ds, r) => some (Nat.ofDigits 10 ds.reverse, r)

/-- Fixed-word helper: checks that the pattern is a prefix of the input
and returns the remainder. -/
def expects : List Char → List Char → Option (List Char)
  | [], l => some l
  | _ :: _, [] => none
  | p :: ps, c :: cs => if c = p then expects ps cs else none

/-- Parser for `null` or a JSON string. -/
def parseOptString (l : List Char) : Option (Option String × List Char) :=
  match expects "null".data l with
  | some r => some (none, r)
  | none => (parseJsonString l).map (fun p => (some p.1, p.2))

/-- Parser for `null` or an unsigned JSON number. -/
def parseOptNat (l : List Char) : Option (Option Nat × List Char) :=
  if isDigitStart l then (parseNat l).map (fun p => (some p.1, p.2))
  else (expects "null".data l).map (fun r => (none, r))

/-- Parser for `true` or `false`. -/
def parseBool (l : List Char) : Option (Bool × List Char) :=
  match expects "true".data l with
  | some r => some (true, r)
  | none =>
    match expects "false".data l with
    | some r => some (false, r)
    | none => none

/-- Parser for `null` or a JSON boolean. -/
def parseOptBool (l : List Char) : Option (Option Bool × List Char) :=
  match expects "null".data l with
  | some r => some (none, r)
  | none => (parseBool l).map (fun p => (some p.1, p.2))

/-! ## serde_json on the request/response structs -/

/-- Rendering of `GeminiGenerateRequest` as serde_json's `to_string`
emits it: compact, fields in declaration order, absent options as
`null`. -/
def renderGenerateRequest (r : GeminiGenerateRequest) : List Char :=
  "\x7b\"prompt\":".data ++ renderString r.prompt
    ++ ",\"style\":".data ++ renderOptString r.style
    ++ ",\"width\":".data ++ renderOptNat r.width
    ++ ",\"height\":".data ++ renderOptNat r.height
    ++ "\x7d".data

/-- Rendering of `GeminiEditRequest` as serde_json emits it. -/
def renderEditRequest (r : GeminiEditRequest) : List Char :=
  "\x7b\"image_base64\":".data ++ renderString r.image_base64
    ++ ",\"prompt\":".data ++ renderString r.prompt
    ++ "\x7d".data

/-- Rendering of `GeminiProcessRequest` as serde_json emits it. -/
def renderProcessRequest (r : GeminiProcessRequest) : List Char :=
  "\x7b\"image_base64\":".data ++ renderString r.image_base64
    ++ ",\"style\":".data ++ renderOptString r.style
    ++ ",\"custom_prompt\":".data ++ renderOptString r.custom_prompt
    ++ ",\"remove_background\":".data ++ renderOptBool r.remove_background
    ++ ",\"threshold\":".data ++ renderOptNat r.threshold
    ++ ",\"padding\":".data ++ renderOptNat r.padding
    ++ "\x7d".data

/-- String-level serialization of a generate request (models
`serde_json::to_string` on `GeminiGenerateRequest`, which cannot fail). -/
def serializeGenerateRequest (r : GeminiGenerateRequest) : String :=
  String.mk (renderGenerateRequest r)

/-- String-level serialization of an edit request. -/
def serializeEditRequest (r : GeminiEditRequest) : String :=
  String.mk (renderEditRequest r)

/-- String-level serialization of a process request. -/
def serializeProcessRequest (r : GeminiProcessRequest) : String :=
  String.mk (renderProcessRequest r)

/-- Parser for the payload of `GeminiGenerateRequest` (the exact grammar
`renderGenerateRequest` emits); used to state the round-trip law. -/
def parseGenerateRequest (l : List Char) : Option GeminiGenerateRequest :=
  (expects "\x7b\"prompt\":".data l).bind fun l1 =>
  (parseJsonString l1).bind fun p1 =>
  (expects ",\"style\":".data p1.2).bind fun l2 =>
  (parseOptString l2).bind fun p2 =>
  (expects ",\"width\":".data p2.2).bind fun l3 =>
  (parseOptNat l3).bind fun p3 =>
  (expects ",\"height\":".data p3.2).bind fun l4 =>
  (parseOptNat l4).bind fun p4 =>
  (expects "\x7d".data p4.2).bind fun l5 =>
  if l5.isEmpty then some ⟨p1.1, p2.1, p3.1, p4.1⟩ else none

/-- Parser for the payload of `GeminiEditRequest`. -/
def parseEditRequest (l : List Char) : Option GeminiEditRequest :=
  (expects "\x7b\"image_base64\":".data l).bind fun l1 =>
  (parseJsonString l1).bind fun p1 =>
  (expects ",\"prompt\":".data p1.2).bind fun l2 =>
  (parseJsonString l2).bind fun p2 =>
  (expects "\x7d".data p2.2).bind fun l3 =>
  if l3.isEmpty then some ⟨p1.1, p2.1⟩ else none

/-- Parser for the payload of `GeminiProcessRequest`. -/
def parseProcessRequest (l : List Char) : Option GeminiProcessRequest :=
  (expects "\x7b\"image_base64\":".data l).bind fun l1 =>
  (parseJsonString l1).bind fun p1 =>
  (expects ",\"style\":".data p1.2).bind fun l2 =>
  (parseOptString l2).bind fun p2 =>
  (expects ",\"custom_prompt\":".data p2.2).bind fun l3 =>
  (parseOptString l3).bind fun p3 =>
  (expects ",\"remove_background\":".data p3.2).bind fun l4 =>
  (parseOptBool l4).bind fun p4 =>
  (expects ",\"threshold\":".data p4.2).bind fun l5 =>
  (parseOptNat l5).bind fun p5 =>
  (expects ",\"padding\":".data p5.2).bind fun l6 =>
  (parseOptNat l6).bind fun p6 =>
  (expects "\x7d".data p6.2).bind fun l7 =>
  if l7.isEmpty then some ⟨p1.1, p2.1, p3.1, p4.1, p5.1, p6.1⟩ else none

/-- Parser for `GeminiGenerateResponse` (worker stdout): two string
fields, compact form. -/
def parseGenerateResponse (l : List Char) : Option GeminiGenerateResponse :=
  (expects "\x7b\"image_base64\":".data l).bind fun l1 =>
  (parseJsonString l1).bind fun p1 =>
  (expects ",\"prompt_used\":".data p1.2).bind fun l2 =>
  (parseJsonString l2).bind fun p2 =>
  (expects "\x7d".data p2.2).bind fun l3 =>
  if l3.isEmpty then some ⟨p1.1, p2.1⟩ else none

/-- Models `serde_json::from_str::<GeminiGenerateResponse>`: parses the
compact grammar; on failure it returns serde_json's diagnostic for a
document that does not start with a valid JSON value (the only failure
class exercised by the theorems below). -/
def from_str_generate_response (s : String) : Except String GeminiGenerateResponse :=
  match parseGenerateResponse s.data with
  | some r => Except.ok r
  | none => Except.error "expected value at line 1 column 1"

/-! ## Process bridge -/

/-- Captured outcome of a finished child process: exit-status success
flag and the captured standard streams (models `std::process::Output`
after `String::from_utf8_lossy`). -/
structure ProcOutput where
  success : Bool
  stdout : String
  stderr : String
deriving DecidableEq

/-- One child-process launch request: program, working directory (as path
components) and argument vector, exactly as `Command::new("python3")`
builds it in `call_python_backend`. -/
structure Invocation where
  program : String
  cwd : List String
  args : List String
deriving DecidableEq

/-- Argument vector from gemini.rs: `-m core.gemini.cli <operation>
<json-payload>`. -/
def backendArgs (operation json_input : String) : List String :=
  ["-m", "core.gemini.cli", operation, json_input]

/-- Models `std::path::Path::parent` on a path given as components:
`none` exactly when there is no parent component to drop. -/
def pathParent (p : List String) : Option (List String) :=
  match p with
  | [] => none
  | _ => some p.dropLast

/-- Tail of `call_python_backend` from the `.output()` call on: maps a
launch failure, a non-zero exit (stderr verbatim), or a successful exit
(stdout parsed) to the bridge result. -/
def handleOutput {R : Type} (parse : String → Except String R)
    (res : Except String ProcOutput) : Except String R :=
  match res with
  | .error e => .error ("Failed to execute Python: " ++ e)
  | .ok output =>
    if !output.success then
      .error ("Python backend error: " ++ output.stderr)
    else
      (parse output.stdout).mapError (fun e => "Failed to parse response: " ++ e)

/-- Embeds `call_python_backend` from gemini.rs.  The ambient effects are
parameters: `current_dir` is the result of `std::env::current_dir()`, and
`run` executes one child process and yields its outcome (or a launch
error).  The steps follow the source order: serialize the request, resolve
the sibling `backend` directory, launch `python3 -m core.gemini.cli
<operation> <payload>` there, then interpret the outcome. -/
def call_python_backend {T R : Type}
    (current_dir : Except String (List String))
    (run : Invocation → Except String ProcOutput)
    (serialize : T → Except String String)
    (parse : String → Except String R)
    (operation : String) (request : T) : Except String R :=
  match (serialize request).mapError (fun e => "Failed to serialize request: " ++ e) with
  | .error e => .error e
  | .ok json_input =>
    match current_dir.mapError (fun e => "Failed to get current directory: " ++ e) with
    | .error e => .error e
    | .ok cwd =>
      match pathParent cwd with
      | none => .error "Failed to get parent directory"
      | some parent =>
        handleOutput parse
          (run ⟨"python3", parent ++ ["backend"], backendArgs operation json_input⟩)

/-- Embeds `gemini_generate` from gemini.rs: serializes via serde_json,
calls the bridge with operation name `generate`, and prefixes any failure
with the operation context. -/
def gemini_generate
    (current_dir : Except String (List String))
    (run : Invocation → Except String ProcOutput)
    (request : GeminiGenerateRequest) : Except String GeminiGenerateResponse :=
  (call_python_backend current_dir run
      (fun r => Except.ok (serializeGenerateRequest r))
      from_str_generate_response "generate" request).mapError
    (fun e => "Failed to generate image: " ++ e)

/-- Embeds `gemini_edit` from gemini.rs. -/
def gemini_edit
    (current_dir : Except String (List String))
    (run : Invocation → Except String ProcOutput)
    (request : GeminiEditRequest) : Except String GeminiGenerateResponse :=
  (call_python_backend current_dir run
      (fun r => Except.ok (serializeEditRequest r))
      from_str_generate_response "edit" request).mapError
    (fun e => "Failed to edit image: " ++ e)

/-- Embeds `gemini_process_image` from gemini.rs. -/
def gemini_process_image
    (current_dir : Except String (List String))
    (run : Invocation → Except String ProcOutput)
    (request : GeminiProcessRequest) : Except String GeminiGenerateResponse :=
  (call_python_backend current_dir run
      (fun r => Except.ok (serializeProcessRequest r))
      from_str_generate_response "process" request).mapError
    (fun e => "Failed to process image: " ++ e)

/-! ## Claims about the process bridge -/

/-- A nonempty component path always has a parent (its components minus
the last). -/
theorem pathParent_of_ne_nil {cwd : List String} (h : cwd ≠ []) :
    pathParent cwd = some cwd.dropLast := by
  cases cwd with
  | nil => exact absurd rfl h
  | cons a t => rfl

/-- Two appended strings differ when their left parts share the list
prefix `p` and then diverge at the next character. -/
theorem ne_of_data_split {a b : String} (p : List Char) (c₁ c₂ : Char)
    (t₁ t₂ : List Char) (ha : a.data = p ++ c₁ :: t₁) (hb : b.data = p ++ c₂ :: t₂)
    (hne : c₁ ≠ c₂) : ∀ s e : String, a ++ s ≠ b ++ e := by
  intro s e h
  have hd := congrArg String.data h
  rw [String.data_append, String.data_append, ha, hb,
    List.append_assoc, List.append_assoc] at hd
  have hc := List.append_cancel_left hd
  simp only [List.cons_append, List.cons.injEq] at hc
  exact hne hc.1

/-- C3: whenever the worker process exits with a non-zero status, each of
the three operations fails, and the error string handed to the caller is
the operation context followed by `Python backend error: ` followed by the
worker's captured stderr, verbatim — in particular the full stderr text is
a contiguous, unaltered suffix of the error. -/
theorem worker_error_verbatim :
    ∀ (cwd : List String), cwd ≠ [] → ∀ (out err : String),
      (∀ req : GeminiGenerateRequest,
        gemini_generate (.ok cwd) (fun _ => .ok ⟨false, out, err⟩) req
          = .error ("Failed to generate image: " ++ ("Python backend error: " ++ err))) ∧
      (∀ req : GeminiEditRequest,
        gemini_edit (.ok cwd) (fun _ => .ok ⟨false, out, err⟩) req
          = .error ("Failed to edit image: " ++ ("Python backend error: " ++ err))) ∧
      (∀ req : GeminiProcessRequest,
        gemini_process_image (.ok cwd) (fun _ => .ok ⟨false, out, err⟩) req
          = .error ("Failed to process image: " ++ ("Python backend error: " ++ err))) ∧
      (∃ p : String,
        "Failed to generate image: " ++ ("Python backend error: " ++ err) = p ++ err) := by
  intro cwd hcwd out err
  refine ⟨fun req => ?_, fun req => ?_, fun req => ?_,
    ⟨"Failed to generate image: " ++ "Python backend error: ",
      (String.append_assoc _ _ _).symm⟩⟩ <;>
    simp [gemini_generate, gemini_edit, gemini_process_image, call_python_backend,
      handleOutput, Except.mapError, pathParent_of_ne_nil hcwd]

/-- Witness for C3: a concrete worker failure with stderr `boom`
propagates that text verbatim. -/
theorem worker_error_verbatim_witness :
    gemini_generate (.ok ["app", "frontend"])
        (fun _ => .ok ⟨false, "", "boom"⟩) ⟨"p", none, none, none⟩
      = .error ("Failed to generate image: " ++ ("Python backend error: " ++ "boom")) :=
  (worker_error_verbatim ["app", "frontend"] (by decide) "" "boom").1
    ⟨"p", none, none, none⟩

/-- C7: the worker's working directory is always the parent of the
caller's current directory joined with the fixed name `backend`; if the
current directory or its parent cannot be determined the call fails with
the corresponding path-resolution error, independently of the process
runner (so before any process is launched). -/
theorem working_directory_resolution :
    (∀ (T R : Type) (run₁ run₂ : Invocation → Except String ProcOutput)
        (serialize : T → Except String String) (parse : String → Except String R)
        (op : String) (req : T) (j m : String), serialize req = .ok j →
        call_python_backend (.error m) run₁ serialize parse op req
            = .error ("Failed to get current directory: " ++ m) ∧
        call_python_backend (.error m) run₁ serialize parse op req
            = call_python_backend (.error m) run₂ serialize parse op req) ∧
    (∀ (T R : Type) (run₁ run₂ : Invocation → Except String ProcOutput)
        (serialize : T → Except String String) (parse : String → Except String R)
        (op : String) (req : T) (j : String) (cwd : List String),
        serialize req = .ok j → pathParent cwd = none →
        call_python_backend (.ok cwd) run₁ serialize parse op req
            = .error "Failed to get parent directory" ∧
        call_python_backend (.ok cwd) run₁ serialize parse op req
            = call_python_backend (.ok cwd) run₂ serialize parse op req) ∧
    (∀ (T R : Type) (run : Invocation → Except String ProcOutput)
        (serialize : T → Except String String) (parse : String → Except String R)
        (op : String) (req : T) (j : String) (cwd p : List String),
        serialize req = .ok j → pathParent cwd = some p →
        call_python_backend (.ok cwd) run serialize parse op req
            = handleOutput parse
                (run ⟨"python3", p ++ ["backend"], backendArgs op j⟩)) := by
  refine ⟨fun T R run₁ run₂ serialize parse op req j m hs => ?_,
    fun T R run₁ run₂ serialize parse op req j cwd hs hp => ?_,
    fun T R run serialize parse op req j cwd p hs hp => ?_⟩ <;>
    simp [call_python_backend, Except.mapError, hs] <;>
    simp [*]

/-- Witness for C7: a failing current-directory lookup surfaces as the
path-resolution error. -/
theorem working_directory_resolution_witness :
    call_python_backend (T := GeminiGenerateRequest) (.error "io error")
        (fun _ => .error "unused") (fun _ => .ok "x")
        from_str_generate_response "generate" ⟨"p", none, none, none⟩
      = .error ("Failed to get current directory: " ++ "io error") :=
  (working_directory_resolution.1 GeminiGenerateRequest GeminiGenerateResponse
    (fun _ => .error "unused") (fun _ => .error "unused") (fun _ => .ok "x")
    from_str_generate_response "generate" ⟨"p", none, none, none⟩ "x" "io error" rfl).1

/-- C8: the three failure classes are mutually distinguishable: a worker
failure, a malformed-output failure and a launch failure each produce an
error with the operation context plus a class-specific label plus the
underlying cause, and no string of one class equals a string of another
class, whatever the causes are. -/
theorem error_kinds_distinguishable :
    (∀ (cwd : List String), cwd ≠ [] → ∀ (req : GeminiGenerateRequest) (out err : String),
        gemini_generate (.ok cwd) (fun _ => .ok ⟨false, out, err⟩) req
          = .error ("Failed to generate image: " ++ ("Python backend error: " ++ err))) ∧
    (∀ (cwd : List String), cwd ≠ [] → ∀ req : GeminiGenerateRequest,
        gemini_generate (.ok cwd) (fun _ => .ok ⟨true, "garbage", ""⟩) req
          = .error ("Failed to generate image: "
              ++ ("Failed to parse response: " ++ "expected value at line 1 column 1"))) ∧
    (∀ (cwd : List String), cwd ≠ [] → ∀ (req : GeminiGenerateRequest) (m : String),
        gemini_generate (.ok cwd) (fun _ => .error m) req
          = .error ("Failed to generate image: " ++ ("Failed to execute Python: " ++ m))) ∧
    (∀ s e : String, "Python backend error: " ++ s ≠ "Failed to parse response: " ++ e) ∧
    (∀ s e : String, "Python backend error: " ++ s ≠ "Failed to execute Python: " ++ e) ∧
    (∀ s e : String, "Failed to parse response: " ++ s ≠ "Failed to execute Python: " ++ e) := by
  have hbad : from_str_generate_response "garbage"
      = .error "expected value at line 1 column 1" := rfl
  refine ⟨fun cwd hcwd req out err => ?_, fun cwd hcwd req => ?_,
    fun cwd hcwd req m => ?_,
    ne_of_data_split [] 'P' 'F' "ython backend error: ".data
      "ailed to parse response: ".data rfl rfl (by decide),
    ne_of_data_split [] 'P' 'F' "ython backend error: ".data
      "ailed to execute Python: ".data rfl rfl (by decide),
    ne_of_data_split "Failed to ".data 'p' 'e' "arse response: ".data
      "xecute Python: ".data rfl rfl (by decide)⟩ <;>
    simp [gemini_generate, call_python_backend, handleOutput, Except.mapError,
      pathParent_of_ne_nil hcwd, hbad]

/-- Witness for C8: the three error shapes at a concrete invocation. -/
theorem error_kinds_distinguishable_witness :
    gemini_generate (.ok ["app", "frontend"]) (fun _ => .ok ⟨false, "", "boom"⟩)
        ⟨"p", none, none, none⟩
      = .error ("Failed to generate image: " ++ ("Python backend error: " ++ "boom")) ∧
    gemini_generate (.ok ["app", "frontend"]) (fun _ => .ok ⟨true, "garbage", ""⟩)
        ⟨"p", none, none, none⟩
      = .error ("Failed to generate image: "
          ++ ("Failed to parse response: " ++ "expected value at line 1 column 1")) ∧
    gemini_generate (.ok ["app", "frontend"]) (fun _ => .error "not found")
        ⟨"p", none, none, none⟩
      = .error ("Failed to generate image: " ++ ("Failed to execute Python: " ++ "not found")) ∧
    ("Python backend error: " ++ "boom" : String)
      ≠ "Failed to parse response: " ++ "expected value at line 1 column 1" :=
  ⟨error_kinds_distinguishable.1 ["app", "frontend"] (by decide) ⟨"p", none, none, none⟩
      "" "boom",
    error_kinds_distinguishable.2.1 ["app", "frontend"] (by decide) ⟨"p", none, none, none⟩,
    error_kinds_distinguishable.2.2.1 ["app", "frontend"] (by decide) ⟨"p", none, none, none⟩
      "not found",
    error_kinds_distinguishable.2.2.2.1 "boom" "expected value at line 1 column 1"⟩

/-! ## Round-trip lemmas for the serde_json model -/

/-- A fixed word at the front of the input is consumed exactly. -/
theorem expects_append : ∀ (p l : List Char), expects p (p ++ l) = some l := by
  intro p
  induction p with
  | nil => intro l; rfl
  | cons c cs ih => intro l; simp [expects, ih]

/-- The hex digit table and the hex digit reader are inverse on digits. -/
theorem hexVal_hexDigitChar {v : Nat} (h : v < 16) :
    hexVal (hexDigitChar v) = some v := by
  interval_cases v <;> rfl

/-- Unescaping inverts escaping: the string body parser recovers exactly
the characters the escaper encoded, and stops at the closing quote. -/
theorem parseStringBody_escape :
    ∀ (s rest : List Char),
      parseStringBody (escapeList s ++ '"' :: rest) = some (s, rest) := by
  intro s
  induction s with
  | nil =>
    intro rest
    rw [parseStringBody.eq_def]
    simp [escapeList]
  | cons c cs ih =>
    intro rest
    by_cases hq : c = '"'
    · subst hq
      simp only [escapeList, escapeChar, reduceIte, List.cons_append,
        List.append_assoc, List.nil_append]
      rw [parseStringBody.eq_def]
      simp [unescapeSimple, ih]
    · by_cases hb : c = '\\'
      · subst hb
        simp only [escapeList, escapeChar, reduceIte, List.cons_append,
          List.append_assoc, List.nil_append]
        rw [parseStringBody.eq_def]
        simp [unescapeSimple, ih]
      · by_cases hctl : c.toNat < 32
        · by_cases h8 : c = '\x08'
          · subst h8
            simp only [escapeList, escapeChar, reduceIte, List.cons_append,
              List.append_assoc, List.nil_append]
            rw [parseStringBody.eq_def]
            simp [unescapeSimple, ih]
          · by_cases ht : c = '\t'
            · subst ht
              simp only [escapeList, escapeChar, reduceIte, List.cons_append,
                List.append_assoc, List.nil_append]
              rw [parseStringBody.eq_def]
              simp [unescapeSimple, ih]
            · by_cases hn : c = '\n'
              · subst hn
                simp only [escapeList, escapeChar, reduceIte, List.cons_append,
                  List.append_assoc, List.nil_append]
                rw [parseStringBody.eq_def]
                simp [unescapeSimple, ih]
              · by_cases hf : c = '\x0C'
                · subst hf
                  simp only [escapeList, escapeChar, reduceIte, List.cons_append,
                    List.append_assoc, List.nil_append]
                  rw [parseStringBody.eq_def]
                  simp [unescapeSimple, ih]
                · by_cases hr : c = '\r'
                  · subst hr
                    simp only [escapeList, escapeChar, reduceIte, List.cons_append,
                      List.append_assoc, List.nil_append]
                    rw [parseStringBody.eq_def]
                    simp [unescapeSimple, ih]
                  · have h16a : c.toNat / 16 < 16 := by omega
                    have h16b : c.toNat % 16 < 16 := by omega
                    simp only [escapeList, escapeChar, if_neg hq, if_neg hb,
                      if_pos hctl, if_neg h8, if_neg ht, if_neg hn, if_neg hf,
                      if_neg hr, List.append_assoc, List.cons_append]
                    rw [parseStringBody.eq_def]
                    have h00 : hexVal '0' = some 0 := rfl
                    simp [hexVal4, h00, hexVal_hexDigitChar h16a,
                      hexVal_hexDigitChar h16b, ih]
                    have harith : c.toNat / 16 * 16 + c.toNat % 16 = c.toNat := by omega
                    simp [harith, Char.ofNat_toNat]
        · simp only [escapeList, escapeChar, if_neg hq, if_neg hb, if_neg hctl,
            List.append_assoc, List.cons_append, List.singleton_append]
          rw [parseStringBody.eq_def]
          simp [hq, hb, ih]

/-- A rendered JSON string parses back to itself, leaving the rest. -/
theorem parseJsonString_render (s : String) (rest : List Char) :
    parseJsonString (renderString s ++ rest) = some (s, rest) := by
  simp [renderString, parseJsonString, List.append_assoc, List.singleton_append,
    parseStringBody_escape s.data rest]

/-- A rendered optional JSON string parses back to itself. -/
theorem parseOptString_render (o : Option String) (rest : List Char) :
    parseOptString (renderOptString o ++ rest) = some (o, rest) := by
  cases o with
  | none =>
    show parseOptString ("null".data ++ rest) = some (none, rest)
    rw [parseOptString, expects_append]
  | some s =>
    show parseOptString (renderString s ++ rest) = some (some s, rest)
    rw [parseOptString]
    have hne : expects "null".data (renderString s ++ rest) = none := rfl
    rw [hne, parseJsonString_render s rest]
    rfl

/-- The digit table and the digit reader are inverse on decimal digits. -/
theorem charDigit_digitToChar {d : Nat} (h : d < 10) :
    charDigit (digitToChar d) = some d := by
  interval_cases d <;> rfl

/-- `takeDigits` consumes exactly a rendered digit block when the rest does
not begin with a digit. -/
theorem takeDigits_map (ds : List Nat) (hds : ∀ d ∈ ds, d < 10) (rest : List Char)
    (hrest : isDigitStart rest = false) :
    takeDigits (ds.map digitToChar ++ rest) = (ds, rest) := by
  induction ds with
  | nil =>
    cases rest with
    | nil => rfl
    | cons c cs =>
      simp only [isDigitStart] at hrest
      simp only [List.map_nil, List.nil_append, takeDigits]
      cases hc : charDigit c with
      | none => rfl
      | some d => rw [hc] at hrest; simp at hrest
  | cons d ds ih =>
    have hd : d < 10 := hds d (List.mem_cons_self d ds)
    have hrec := ih (fun x hx => hds x (List.mem_cons_of_mem d hx))
    simp [takeDigits, charDigit_digitToChar hd, hrec]

/-- A rendered natural number parses back to itself when the rest does not
begin with a digit. -/
theorem parseNat_natToChars (n : Nat) (rest : List Char)
    (hrest : isDigitStart rest = false) :
    parseNat (natToChars n ++ rest) = some (n, rest) := by
  by_cases h0 : n = 0
  · subst h0
    have h1 : takeDigits ('0' :: rest) = ([0], rest) :=
      takeDigits_map [0] (by simp) rest hrest
    show parseNat ('0' :: rest) = some (0, rest)
    rw [parseNat, h1]
    simp [Nat.ofDigits]
  · have hmap : natToChars n = ((Nat.digits 10 n).reverse).map digitToChar := by
      simp [natToChars, h0, List.map_reverse]
    have hlt : ∀ d ∈ (Nat.digits 10 n).reverse, d < 10 := fun d hd =>
      Nat.digits_lt_base (by norm_num) (List.mem_reverse.mp hd)
    have htd := takeDigits_map ((Nat.digits 10 n).reverse) hlt rest hrest
    rw [hmap, parseNat, htd]
    have hne : (Nat.digits 10 n).reverse ≠ [] := by
      simp [Nat.digits_ne_nil_iff_ne_zero, h0]
    cases hrev : (Nat.digits 10 n).reverse with
    | nil => exact absurd hrev hne
    | cons a t =>
      simp only []
      rw [← hrev, List.reverse_reverse, Nat.ofDigits_digits]

/-- A rendered natural number always begins with a digit character. -/
theorem natToChars_digitStart (n : Nat) (rest : List Char) :
    isDigitStart (natToChars n ++ rest) = true := by
  by_cases h0 : n = 0
  · subst h0; rfl
  · have hne : natToChars n ≠ [] := by
      simp [natToChars, h0, Nat.digits_ne_nil_iff_ne_zero]
    cases hl : natToChars n with
    | nil => exact absurd hl hne
    | cons c cs =>
      have hc : c ∈ natToChars n := by rw [hl]; exact List.mem_cons_self _ _
      rw [natToChars] at hc
      simp only [h0, if_false, List.mem_reverse, List.mem_map] at hc
      rcases hc with ⟨d, hd, hdc⟩
      have hd10 : d < 10 := Nat.digits_lt_base (by norm_num) hd
      simp [isDigitStart, ← hdc, charDigit_digitToChar hd10]

/-- A rendered optional JSON number parses back to itself when the rest
does not begin with a digit. -/
theorem parseOptNat_render (o : Option Nat) (rest : List Char)
    (hrest : isDigitStart rest = false) :
    parseOptNat (renderOptNat o ++ rest) = some (o, rest) := by
  cases o with
  | none =>
    show parseOptNat ("null".data ++ rest) = some (none, rest)
    rw [parseOptNat]
    have hnd : isDigitStart ("null".data ++ rest) = false := rfl
    rw [hnd, expects_append]
    simp
  | some n =>
    show parseOptNat (natToChars n ++ rest) = some (some n, rest)
    rw [parseOptNat, natToChars_digitStart n rest,
      parseNat_natToChars n rest hrest]
    simp

/-- A rendered optional JSON boolean parses back to itself. -/
theorem parseOptBool_render (o : Option Bool) (rest : List Char) :
    parseOptBool (renderOptBool o ++ rest) = some (o, rest) := by
  cases o with
  | none =>
    show parseOptBool ("null".data ++ rest) = some (none, rest)
    rw [parseOptBool, expects_append]
  | some b =>
    cases b with
    | true =>
      show parseOptBool ("true".data ++ rest) = some (some true, rest)
      rw [parseOptBool]
      have h1 : expects "null".data ("true".data ++ rest) = none := rfl
      rw [h1, parseBool, expects_append]
      rfl
    | false =>
      show parseOptBool ("false".data ++ rest) = some (some false, rest)
      rw [parseOptBool]
      have h1 : expects "null".data ("false".data ++ rest) = none := rfl
      have h2 : expects "true".data ("false".data ++ rest) = none := rfl
      rw [h1, parseBool, h2, expects_append]
      rfl

/-- Payload round trip for the generate variant. -/
theorem renderGenerateRequest_roundtrip (r : GeminiGenerateRequest) :
    parseGenerateRequest (renderGenerateRequest r) = some r := by
  obtain ⟨p, st, w, h⟩ := r
  have hw : isDigitStart (",\"height\":".data ++ (renderOptNat h ++ "\x7d".data))
      = false := rfl
  have hh : isDigitStart ("\x7d".data : List Char) = false := rfl
  have hend : expects "\x7d".data "\x7d".data = some [] := rfl
  rw [renderGenerateRequest]
  simp only [List.append_assoc]
  rw [parseGenerateRequest]
  rw [expects_append]; simp only [Option.some_bind]
  rw [parseJsonString_render]; simp only [Option.some_bind]
  rw [expects_append]; simp only [Option.some_bind]
  rw [parseOptString_render]; simp only [Option.some_bind]
  rw [expects_append]; simp only [Option.some_bind]
  rw [parseOptNat_render w (",\"height\":".data ++ (renderOptNat h ++ "\x7d".data)) hw]
  simp only [Option.some_bind]
  rw [expects_append]; simp only [Option.some_bind]
  rw [parseOptNat_render h "\x7d".data hh]; simp only [Option.some_bind]
  rw [hend]; simp only [Option.some_bind]
  rfl

/-- Payload round trip for the edit variant. -/
theorem renderEditRequest_roundtrip (r : GeminiEditRequest) :
    parseEditRequest (renderEditRequest r) = some r := by
  obtain ⟨img, p⟩ := r
  have hend : expects "\x7d".data "\x7d".data = some [] := rfl
  rw [renderEditRequest]
  simp only [List.append_assoc]
  rw [parseEditRequest]
  rw [expects_append]; simp only [Option.some_bind]
  rw [parseJsonString_render]; simp only [Option.some_bind]
  rw [expects_append]; simp only [Option.some_bind]
  rw [parseJsonString_render]; simp only [Option.some_bind]
  rw [hend]; simp only [Option.some_bind]
  rfl

/-- Payload round trip for the process variant. -/
theorem renderProcessRequest_roundtrip (r : GeminiProcessRequest) :
    parseProcessRequest (renderProcessRequest r) = some r := by
  obtain ⟨img, st, cp, rb, th, pd⟩ := r
  have hth : isDigitStart (",\"padding\":".data ++ (renderOptNat pd ++ "\x7d".data))
      = false := rfl
  have hpd : isDigitStart ("\x7d".data : List Char) = false := rfl
  have hend : expects "\x7d".data "\x7d".data = some [] := rfl
  rw [renderProcessRequest]
  simp only [List.append_assoc]
  rw [parseProcessRequest]
  rw [expects_append]; simp only [Option.some_bind]
  rw [parseJsonString_render]; simp only [Option.some_bind]
  rw [expects_append]; simp only [Option.some_bind]
  rw [parseOptString_render]; simp only [Option.some_bind]
  rw [expects_append]; simp only [Option.some_bind]
  rw [parseOptString_render]; simp only [Option.some_bind]
  rw [expects_append]; simp only [Option.some_bind]
  rw [parseOptBool_render]; simp only [Option.some_bind]
  rw [expects_append]; simp only [Option.some_bind]
  rw [parseOptNat_render th (",\"padding\":".data ++ (renderOptNat pd ++ "\x7d".data)) hth]
  simp only [Option.some_bind]
  rw [expects_append]; simp only [Option.some_bind]
  rw [parseOptNat_render pd "\x7d".data hpd]; simp only [Option.some_bind]
  rw [hend]; simp only [Option.some_bind]
  rfl

/-- C9: for every request value of each of the three variants, serializing
it with the serde_json model and parsing the payload back yields the
original value: present fields are preserved and absent optional fields
are emitted as `null` and read back as absent. -/
theorem request_payload_roundtrip :
    (∀ r : GeminiGenerateRequest,
        parseGenerateRequest (serializeGenerateRequest r).data = some r) ∧
    (∀ r : GeminiEditRequest,
        parseEditRequest (serializeEditRequest r).data = some r) ∧
    (∀ r : GeminiProcessRequest,
        parseProcessRequest (serializeProcessRequest r).data = some r) :=
  ⟨fun r => renderGenerateRequest_roundtrip r,
    fun r => renderEditRequest_roundtrip r,
    fun r => renderProcessRequest_roundtrip r⟩

/-! ## Concrete scenarios -/

/-- The request of the concrete generate scenario. -/
def generateScenarioRequest : GeminiGenerateRequest :=
  ⟨"a red circle", none, none, none⟩

/-- The payload the scenario expects as the worker's json argument. -/
def generateScenarioPayload : String :=
  "\x7b\"prompt\":\"a red circle\",\"style\":null,\"width\":null,\"height\":null\x7d"

/-- The worker stdout of the concrete generate scenario. -/
def generateScenarioStdout : String :=
  "\x7b\"image_base64\":\"...\",\"prompt_used\":\"a red circle\"\x7d"

/-- The exact invocation the scenario expects: `python3` in the sibling
`backend` directory with arguments `-m core.gemini.cli generate
<payload>`. -/
def generateScenarioInvocation : Invocation :=
  ⟨"python3", ["app", "backend"],
    ["-m", "core.gemini.cli", "generate", generateScenarioPayload]⟩

/-- A runner that answers only the expected invocation: it returns the
scenario stdout there and fails on any other invocation, so a successful
call certifies the exact argument vector and working directory. -/
def generateScenarioRun : Invocation → Except String ProcOutput :=
  fun inv =>
    if inv = generateScenarioInvocation then .ok ⟨true, generateScenarioStdout, ""⟩
    else .error "unexpected invocation"

/-- C5: generating from `a red circle` with all optional fields absent
serializes to exactly the expected payload, hands it to the worker as the
final positional argument after the operation name `generate` (the runner
rejects every other invocation), and returns the worker's JSON answer
unchanged. -/
theorem generate_concrete_scenario :
    serializeGenerateRequest generateScenarioRequest = generateScenarioPayload ∧
    gemini_generate (.ok ["app", "frontend"]) generateScenarioRun
        generateScenarioRequest
      = .ok ⟨"...", "a red circle"⟩ := by
  exact ⟨rfl, rfl⟩

/-- C4 counterexample: with a worker that exits successfully but emits the
unparseable stdout `garbage`, the call fails with the parse diagnostic,
and that error string does not contain the raw stdout text anywhere —
refuting the claim that the error carries the raw captured stdout. -/
theorem parse_error_payload_counterexample :
    gemini_generate (.ok ["app", "frontend"]) (fun _ => .ok ⟨true, "garbage", ""⟩)
        generateScenarioRequest
      = .error "Failed to generate image: Failed to parse response: expected value at line 1 column 1" ∧
    ¬ ∃ p q : List Char,
      ("Failed to generate image: Failed to parse response: expected value at line 1 column 1").data
        = p ++ "garbage".data ++ q := by
  refine ⟨rfl, ?_⟩
  rintro ⟨p, q, hpq⟩
  have hb : 'b' ∈ ("Failed to generate image: Failed to parse response: expected value at line 1 column 1").data := by
    rw [hpq]
    simp only [List.mem_append]
    exact Or.inl (Or.inr (by decide))
  exact absurd hb (by decide)

/-- C4 (amended): when the worker exits successfully but its stdout fails
to deserialize, the caller-facing error carries the operation context, the
fixed parse label and the parse failure reason — but not the raw captured
stdout. -/
theorem parse_error_payload_amended :
    ∀ (cwd : List String), cwd ≠ [] →
    ∀ (req : GeminiGenerateRequest) (st e : String),
      from_str_generate_response st = .error e →
      gemini_generate (.ok cwd) (fun _ => .ok ⟨true, st, ""⟩) req
        = .error ("Failed to generate image: " ++ ("Failed to parse response: " ++ e)) := by
  intro cwd hcwd req st e hparse
  simp [gemini_generate, call_python_backend, handleOutput, Except.mapError,
    pathParent_of_ne_nil hcwd, hparse]

/-- Witness for the amended C4: the `garbage` stdout produces exactly the
context-plus-reason error. -/
theorem parse_error_payload_amended_witness :
    gemini_generate (.ok ["app", "frontend"]) (fun _ => .ok ⟨true, "garbage", ""⟩)
        ⟨"p", none, none, none⟩
      = .error ("Failed to generate image: "
          ++ ("Failed to parse response: " ++ "expected value at line 1 column 1")) :=
  parse_error_payload_amended ["app", "frontend"] (by decide) ⟨"p", none, none, none⟩
    "garbage" "expected value at line 1 column 1" rfl
